import Mathlib

/-!
Verification development for the geospatial clustering core of the SSP2025
repository (src/backend/app/services/clustering_service.py and
src/backend/app/services/haversine.py).

Two embeddings are used:

* `SSP.Hav`: an exact real-number embedding of `haversine_distance` from
  haversine.py (the trigonometric formula itself), used for the
  zero-distance claims.

* `SSP.KM`: the clustering engine of clustering_service.py, embedded
  generically over the numeric type of coordinates/distances
  (a `LinearOrderedField`), over the distance function and over the
  centroid function.  The structural claims about the engine
  (partitioning, iteration bounds, empty-cluster handling, determinism,
  banded lookups) do not depend on the analytic form of the haversine
  formula, so they are proved for every distance/centroid function and
  hold in particular for the haversine instantiation
  (`perform_kmeans_clustering_real` below ties the two embeddings
  together).  Instantiating the field with `ℚ` makes every engine
  definition kernel-computable, so witnesses and counterexamples
  evaluate by `decide`.

The single stochastic ingredient of the source, `random.sample` in
`initialize_centroids`, is modelled by passing the sampled index list as
an explicit argument (the outcome of the random draw); `random.sample`
raising `ValueError` when the sample is larger than the population is
modelled with `Except`.
-/

namespace SSP

/-! ### Real embedding of haversine.py -/

/-- `EARTH_RADIUS_KM = 6371` from haversine.py line 4. -/
def EARTH_RADIUS_KM : ℝ := 6371

/-- `math.radians`: degrees to radians. -/
noncomputable def radians (x : ℝ) : ℝ := x * Real.pi / 180

/-- `math.atan2 y x`: the two-argument arctangent, embedded by its
standard case split (the call sites below only ever use `x ≥ 0`). -/
noncomputable def atan2 (y x : ℝ) : ℝ :=
  if 0 < x then Real.arctan (y / x)
  else if x < 0 then
    (if 0 ≤ y then Real.arctan (y / x) + Real.pi else Real.arctan (y / x) - Real.pi)
  else
    (if 0 < y then Real.pi / 2 else if y < 0 then -(Real.pi / 2) else 0)

/-- `haversine_distance` from haversine.py lines 6–25: great-circle
distance in kilometres between two latitude/longitude pairs given in
degrees. -/
noncomputable def haversine_distance (lat1 lon1 lat2 lon2 : ℝ) : ℝ :=
  let lat1_rad := radians lat1
  let lat2_rad := radians lat2
  let delta_lat := radians (lat2 - lat1)
  let delta_lon := radians (lon2 - lon1)
  let a := Real.sin (delta_lat / 2) ^ 2 +
    Real.cos lat1_rad * Real.cos lat2_rad * Real.sin (delta_lon / 2) ^ 2
  let c := 2 * atan2 (Real.sqrt a) (Real.sqrt (1 - a))
  EARTH_RADIUS_KM * c

/-! ### Data model of clustering_service.py

The Python code passes dict-shaped records around; each dict shape is
embedded as a structure, generic in the numeric type `δ` of
coordinates, distances and scores. -/

/-- A business record as consumed by `perform_kmeans_clustering`
(the keys read by clustering_service.py). -/
structure Business (δ : Type) where
  business_id : Nat
  business_name : String
  category : String
  street : String
  zone_type : String
  latitude : δ
  longitude : δ
deriving DecidableEq

/-- The point dicts built in `perform_kmeans_clustering` lines 23–30
(`{latitude, longitude, business}`); also the shape of the
`competitor_points`/`business_points` dicts of lines 217–220 and
314–317, whose payload key (`business`/`data`) plays the same role. -/
structure BizPoint (δ : Type) where
  latitude : δ
  longitude : δ
  business : Business δ
deriving DecidableEq

/-- A centroid dict `{latitude, longitude}`. -/
structure Centroid (δ : Type) where
  latitude : δ
  longitude : δ
deriving DecidableEq

/-- A cluster dict as built by `assign_to_clusters` lines 83–91. -/
structure Cluster (δ : Type) where
  id : Nat
  centroid : Centroid δ
  points : List (BizPoint δ)
  color : String
deriving DecidableEq

/-- An element of `cluster_scores` (lines 192–196). -/
structure ClusterScore (δ : Type) where
  cluster : Cluster δ
  score : δ
  competitor_count : Nat
deriving DecidableEq

/-- A formatted point of the response (lines 257–263). -/
structure FormattedPoint (δ : Type) where
  latitude : δ
  longitude : δ
  business_id : Nat
  business_name : String
  category : String
deriving DecidableEq

/-- A formatted cluster of the response (lines 265–274). -/
structure FormattedCluster (δ : Type) where
  id : Nat
  centroid : Centroid δ
  points : List (FormattedPoint δ)
  color : String
  business_count : Nat
deriving DecidableEq

/-- An entry of `nearby_businesses` (lines 222–232). -/
structure NearbyBusiness (δ : Type) where
  business_id : Nat
  business_name : String
  category : String
  street : String
  zone_type : String
  distance : δ
deriving DecidableEq

/-- The `competitor_analysis` dict returned by `analyze_competitors`
(lines 339–347; `distance_to_nearest` is `none` exactly when the source
would store `None`, i.e. when the distance is `float('inf')`). -/
structure CompetitorAnalysis (δ : Type) where
  nearest_competitor : Option (Business δ)
  distance_to_nearest : Option δ
  competitors_within_500m : Nat
  competitors_within_1km : Nat
  competitors_within_2km : Nat
  market_saturation : δ
  recommended_strategy : String
deriving DecidableEq

/-- The `analysis` sub-dict of the response (lines 283–288). -/
structure Analysis (δ : Type) where
  totalBusinesses : Nat
  competitorCount : Nat
  opportunity : String
  confidence : δ
deriving DecidableEq

/-- The response dict of `find_optimal_location` (lines 276–291). -/
structure Result (δ : Type) where
  clusters : List (FormattedCluster δ)
  recommended_location : Centroid δ
  zone_type : String
  analysis : Analysis δ
  competitor_analysis : CompetitorAnalysis δ
  nearby_businesses : List (NearbyBusiness δ)
deriving DecidableEq

/-- `random.sample(range(len(points)), k)` raises `ValueError` when the
sample size exceeds the population size. -/
inductive SampleError where
  | valueError
deriving DecidableEq

namespace KM

variable {δ : Type} [LinearOrderedField δ]

/-- `CLUSTER_COLORS` from clustering_service.py line 11. -/
def CLUSTER_COLORS : List String :=
  ["#3b82f6", "#ef4444", "#10b981", "#f59e0b", "#8b5cf6", "#ec4899", "#06b6d4", "#84cc16"]

/-- `d < m` where `m` is a running minimum initialized to
`float('inf')` (modelled by `none`). -/
def ltInf (d : δ) (m : Option δ) : Bool :=
  match m with
  | none => true
  | some x => decide (d < x)

/-- The point comprehension of `perform_kmeans_clustering` lines 23–30
(also lines 217–220 and 314–317). -/
def mkPoint (b : Business δ) : BizPoint δ :=
  { latitude := b.latitude, longitude := b.longitude, business := b }

/-- `initialize_centroids` lines 69–75.  `random.sample` fails with
`ValueError` when `k > len(points)`; otherwise the sampled indices
(injected here as `sample_indices`, the outcome of the random draw)
select the initial centroids. -/
def initialize_centroids (points : List (BizPoint δ)) (k : Nat)
    (sample_indices : List Nat) : Except SampleError (List (Centroid δ)) :=
  if points.length < k then Except.error SampleError.valueError
  else Except.ok (sample_indices.map (fun i =>
    match points[i]? with
    | some p => ({ latitude := p.latitude, longitude := p.longitude } : Centroid δ)
    | none => ({ latitude := 0, longitude := 0 } : Centroid δ)))

/-- One step of the inner loop of `assign_to_clusters` lines 97–106:
update the running minimum distance and closest index on strictly
smaller distance only. -/
def minStep (dist : δ → δ → δ → δ → δ) (plat plon : δ)
    (acc : Option δ × Nat) (ic : Nat × Centroid δ) : Option δ × Nat :=
  let d := dist plat plon ic.2.latitude ic.2.longitude
  if ltInf d acc.1 then (some d, ic.1) else acc

/-- The inner loop of `assign_to_clusters` lines 93–106: running
minimum distance (starting at `float('inf')`, modelled `none`) and
index of the closest centroid (starting at `0`).  Only the
latitude/longitude of the point are read. -/
def closestIndex (dist : δ → δ → δ → δ → δ) (plat plon : δ)
    (centroids : List (Centroid δ)) : Nat :=
  (centroids.enum.foldl (minStep dist plat plon) (none, 0)).2

/-- `assign_to_clusters` lines 77–110 (the parameter `k` is accepted
but, as in the source, never read). -/
def assign_to_clusters (dist : δ → δ → δ → δ → δ) (points : List (BizPoint δ))
    (centroids : List (Centroid δ)) (k : Nat) : List (Cluster δ) :=
  let clusters := centroids.enum.map (fun ic =>
    ({ id := ic.1, centroid := ic.2, points := [],
       color := CLUSTER_COLORS.getD (ic.1 % CLUSTER_COLORS.length) ("") } : Cluster δ))
  let _ := k
  points.foldl
    (fun cls p =>
      List.modify (fun c => { c with points := c.points ++ [p] })
        (closestIndex dist p.latitude p.longitude centroids) cls)
    clusters

/-- `recalculate_centroids` lines 112–123.  The source hands the member
point dicts of a non-empty cluster to `calculate_geographic_centroid`,
which reads only their latitude/longitude; the centroid computation is
a parameter `centroidFn` on coordinate pairs here. -/
def recalculate_centroids (centroidFn : List (δ × δ) → Centroid δ)
    (clusters : List (Cluster δ)) : List (Centroid δ) :=
  clusters.map (fun c =>
    if c.points = [] then c.centroid
    else centroidFn (c.points.map (fun p => (p.latitude, p.longitude))))

/-- `has_converged` lines 125–140 (`threshold_km` defaults to `0.01`
at the call site). -/
def has_converged (dist : δ → δ → δ → δ → δ)
    (old_centroids new_centroids : List (Centroid δ)) (threshold_km : δ) : Bool :=
  (old_centroids.zip new_centroids).all (fun pr =>
    decide (dist pr.1.latitude pr.1.longitude pr.2.latitude pr.2.longitude < threshold_km))

/-- The `for i in range(max_iterations)` loop of
`perform_kmeans_clustering` lines 39–52, with the remaining number of
passes as fuel.  Returns the clusters of the last executed assignment
pass, the centroid list current when the loop left (NOT advanced to the
newly recomputed centroids when the loop leaves through the convergence
`break`), and the `iterations` counter. -/
def kmeansLoop (dist : δ → δ → δ → δ → δ) (centroidFn : List (δ × δ) → Centroid δ)
    (points : List (BizPoint δ)) (k : Nat) (centroids : List (Centroid δ))
    (clusters : List (Cluster δ)) (iterations : Nat) :
    Nat → List (Cluster δ) × List (Centroid δ) × Nat
  | 0 => (clusters, centroids, iterations)
  | fuel + 1 =>
    let clusters2 := assign_to_clusters dist points centroids k
    let new_centroids := recalculate_centroids centroidFn clusters2
    if has_converged dist centroids new_centroids (1 / 100) then
      (clusters2, centroids, iterations + 1)
    else
      kmeansLoop dist centroidFn points k new_centroids clusters2 (iterations + 1) fuel

/-- `calculate_density_within_radius` from haversine.py lines 64–82. -/
def calculate_density_within_radius (dist : δ → δ → δ → δ → δ) (center : Centroid δ)
    (points : List (BizPoint δ)) (radius_km : δ) : Nat :=
  points.countP (fun p =>
    decide (dist center.latitude center.longitude p.latitude p.longitude ≤ radius_km))

/-- `find_nearest_point` from haversine.py lines 84–114: `(None, inf)`
on an empty list, else a strict-minimum scan starting from the head
(`none` in the second component stands for `float('inf')`). -/
def find_nearest_point (dist : δ → δ → δ → δ → δ) (location : Centroid δ)
    (points : List (BizPoint δ)) : Option (BizPoint δ) × Option δ :=
  match points with
  | [] => (none, none)
  | p0 :: rest =>
    rest.foldl
      (fun (acc : Option (BizPoint δ) × Option δ) p =>
        let d := dist location.latitude location.longitude p.latitude p.longitude
        if ltInf d acc.2 then (some p, some d) else acc)
      (some p0, some (dist location.latitude location.longitude p0.latitude p0.longitude))

/-- Stable insertion into an ascending-by-key list: the new element is
placed before the first element of key not smaller than its own. -/
def insertAsc (key : α → δ) (a : α) : List α → List α
  | [] => [a]
  | b :: bs => if key a ≤ key b then a :: b :: bs else b :: insertAsc key a bs

/-- Stable ascending sort by key; extensionally equal to Python's
stable `list.sort(key=...)` (both are stable ascending sorts). -/
def sortAsc (key : α → δ) : List α → List α
  | [] => []
  | a :: rest => insertAsc key a (sortAsc key rest)

/-- Stable insertion into a descending-by-key list. -/
def insertDesc (key : α → δ) (a : α) : List α → List α
  | [] => [a]
  | b :: bs => if key b ≤ key a then a :: b :: bs else b :: insertDesc key a bs

/-- Stable descending sort by key; extensionally equal to Python's
stable `list.sort(key=..., reverse=True)`. -/
def sortDesc (key : α → δ) : List α → List α
  | [] => []
  | a :: rest => insertDesc key a (sortDesc key rest)

/-- `get_points_within_radius` from haversine.py lines 116–138: keep
the points (paired with their distance) within the radius, in input
order, then stably sort ascending by distance. -/
def get_points_within_radius (dist : δ → δ → δ → δ → δ) (center : Centroid δ)
    (points : List (BizPoint δ)) (radius_km : δ) : List (BizPoint δ × δ) :=
  let result := points.filterMap (fun p =>
    let d := dist center.latitude center.longitude p.latitude p.longitude
    if d ≤ radius_km then some (p, d) else none)
  sortAsc (fun x => x.2) result

/-- `analyze_competitors` lines 293–347. -/
def analyze_competitors (dist : δ → δ → δ → δ → δ) (location : Centroid δ)
    (businesses : List (Business δ)) (business_category : String) : CompetitorAnalysis δ :=
  let competitors := businesses.filter
    (fun b => b.category.toLower == business_category.toLower)
  if competitors = [] then
    { nearest_competitor := none
      distance_to_nearest := none
      competitors_within_500m := 0
      competitors_within_1km := 0
      competitors_within_2km := 0
      market_saturation := 0
      recommended_strategy := "FIRST MOVER: No competitors detected. Excellent opportunity to establish market presence and brand recognition." }
  else
    let competitor_points := competitors.map mkPoint
    let nd := find_nearest_point dist location competitor_points
    let competitors_500m := calculate_density_within_radius dist location competitor_points (5 / 10)
    let competitors_1km := calculate_density_within_radius dist location competitor_points 1
    let competitors_2km := calculate_density_within_radius dist location competitor_points 2
    let max_expected : δ := 10
    let market_saturation := min ((competitors_1km : δ) / max_expected) 1
    let strategy :=
      if competitors_500m = 0 then
        ("LOW COMPETITION: No immediate competitors. Focus on quality service and building customer loyalty.")
      else if competitors_500m ≤ 2 then
        ("MODERATE COMPETITION: Differentiate through unique value proposition, better pricing, or superior service.")
      else if competitors_500m ≤ 5 then
        ("HIGH COMPETITION: Require strong differentiation strategy. Consider niche specialization or unique selling points.")
      else
        ("SATURATED MARKET: Very high competition. Success requires exceptional differentiation or consider alternative location.")
    { nearest_competitor := nd.1.map (fun p => p.business)
      distance_to_nearest := nd.2
      competitors_within_500m := competitors_500m
      competitors_within_1km := competitors_1km
      competitors_within_2km := competitors_2km
      market_saturation := market_saturation
      recommended_strategy := strategy }

/-- The per-point formatting of lines 257–263. -/
def formatPoint (p : BizPoint δ) : FormattedPoint δ :=
  { latitude := p.latitude
    longitude := p.longitude
    business_id := p.business.business_id
    business_name := p.business.business_name
    category := p.business.category }

/-- The per-cluster formatting of lines 253–274. -/
def formatCluster (cluster : Cluster δ) : FormattedCluster δ :=
  { id := cluster.id
    centroid := cluster.centroid
    points := cluster.points.map formatPoint
    color := cluster.color
    business_count := cluster.points.length }

/-- The `nearby_businesses` entry formatting of lines 222–232. -/
def toNearby (p : BizPoint δ × δ) : NearbyBusiness δ :=
  { business_id := p.1.business.business_id
    business_name := p.1.business.business_name
    category := p.1.business.category
    street := p.1.business.street
    zone_type := p.1.business.zone_type
    distance := p.2 }

/-- The body of the cluster-scoring loop, lines 155–196 (`none` for an
empty cluster, mirroring the `continue`). -/
def scoreCluster (dist : δ → δ → δ → δ → δ) (business_category : String)
    (cluster : Cluster δ) : Option (ClusterScore δ) :=
  if cluster.points = [] then none
  else
    let competitor_count := cluster.points.countP
      (fun p => p.business.category.toLower == business_category.toLower)
    let avg_distance :=
      if 0 < cluster.points.length then
        (cluster.points.map (fun p =>
          dist cluster.centroid.latitude cluster.centroid.longitude
            p.latitude p.longitude)).sum / (cluster.points.length : δ)
      else (1 / 10 : δ)
    let density := (cluster.points.length : δ) /
      ((314159 / 100000) * max avg_distance (1 / 10) ^ 2)
    let competitor_density := (competitor_count : δ) / (max cluster.points.length 1 : δ)
    let commercial_count := cluster.points.countP
      (fun p => p.business.zone_type == "Commercial")
    let commercial_bonus := (commercial_count : δ) / (max cluster.points.length 1 : δ)
    let score := (1 - competitor_density) * (5 / 10) +
      density * (3 / 10) + commercial_bonus * (2 / 10)
    some { cluster := cluster, score := score, competitor_count := competitor_count }

/-- `find_optimal_location` lines 142–291. -/
def find_optimal_location (dist : δ → δ → δ → δ → δ)
    (centroidFn : List (δ × δ) → Centroid δ) (businesses : List (Business δ))
    (business_category : String) (clusters : List (Cluster δ)) : Result δ :=
  let competitors := businesses.filter
    (fun b => b.category.toLower == business_category.toLower)
  let cluster_scores := clusters.filterMap (scoreCluster dist business_category)
  let sorted_scores := sortDesc (fun s => s.score) cluster_scores
  let recommended_location :=
    match sorted_scores with
    | [] => centroidFn (businesses.map (fun b => (b.latitude, b.longitude)))
    | best :: _ => best.cluster.centroid
  let competitor_analysis :=
    analyze_competitors dist recommended_location businesses business_category
  let business_points := businesses.map mkPoint
  let nearby := get_points_within_radius dist recommended_location business_points 2
  let nearby_businesses := (nearby.take 10).map toNearby
  let commercial_count := (nearby_businesses.take 5).countP
    (fun nb => nb.zone_type == "Commercial")
  let zone_type := if 3 ≤ commercial_count then ("Commercial") else ("Residential")
  let oc : String × δ :=
    if competitor_analysis.competitors_within_500m = 0 then
      ("HIGH OPPORTUNITY: No direct competitors within 500m radius. Ideal location for market entry with first-mover advantage.", 92 / 100)
    else if competitor_analysis.competitors_within_1km ≤ 2 then
      ("MODERATE-HIGH OPPORTUNITY: Low competition density within 1km. Good potential for market share with proper execution.", 78 / 100)
    else if competitor_analysis.competitors_within_1km ≤ 5 then
      ("MODERATE OPPORTUNITY: Moderate competition present. Success depends on differentiation and service quality.", 62 / 100)
    else
      ("CHALLENGING MARKET: High competition density. Requires strong differentiation strategy or consider alternative location.", 45 / 100)
  { clusters := clusters.map formatCluster
    recommended_location := recommended_location
    zone_type := zone_type
    analysis :=
      { totalBusinesses := businesses.length
        competitorCount := competitors.length
        opportunity := oc.1
        confidence := oc.2 }
    competitor_analysis := competitor_analysis
    nearby_businesses := nearby_businesses }

/-- `perform_kmeans_clustering` lines 13–67: build the points, draw the
initial centroids (propagating the `ValueError` of `random.sample`),
iterate, write the final centroid list back into the clusters of the
last assignment pass (lines 55–56), assemble the response and attach
the iteration count (line 65). -/
def perform_kmeans_clustering (dist : δ → δ → δ → δ → δ)
    (centroidFn : List (δ × δ) → Centroid δ) (businesses : List (Business δ))
    (business_category : String) (sample_indices : List Nat)
    (num_clusters : Nat) (max_iterations : Nat) :
    Except SampleError (Result δ × Nat) :=
  let points := businesses.map mkPoint
  match initialize_centroids points num_clusters sample_indices with
  | Except.error e => Except.error e
  | Except.ok centroids0 =>
    let r := kmeansLoop dist centroidFn points num_clusters centroids0 [] 0 max_iterations
    let clusters2 := r.1.enum.map (fun ic =>
      { ic.2 with centroid := r.2.1.getD ic.1 ic.2.centroid })
    let result := find_optimal_location dist centroidFn businesses business_category clusters2
    Except.ok (result, r.2.2)

/-- The zone-type rule exactly as the specification words it
("the 5 nearest businesses to the recommended location, ranked purely
by haversine distance, irrespective of cluster membership; using
however many exist when fewer than 5"): the five nearest of ALL
businesses, with no radius restriction.  Stated from the spec, to be
compared with what `find_optimal_location` computes. -/
def fiveNearestAllBusinesses (dist : δ → δ → δ → δ → δ) (location : Centroid δ)
    (businesses : List (Business δ)) : List (Business δ) :=
  (sortAsc (fun b => dist location.latitude location.longitude b.latitude b.longitude)
    businesses).take 5

end KM

/-- The `num_clusters` constraint of the request layer:
`Field(5, ge=2, le=10)` in `ClusteringRequest`
(src/backend/app/api/v1/clustering.py line 18). -/
def num_clusters_valid (n : Int) : Bool :=
  decide (2 ≤ n) && decide (n ≤ 10)

/-- `math.degrees`: radians to degrees. -/
noncomputable def degrees (x : ℝ) : ℝ := x * 180 / Real.pi

/-- `calculate_geographic_centroid` from haversine.py lines 27–62 over
the reals, on latitude/longitude pairs (the source reads exactly those
two keys of each point dict).  The source raises `ValueError` on an
empty list; this total embedding returns the origin there instead —
the engine call sites only reach it with a non-empty list unless the
whole business list is empty. -/
noncomputable def calculate_geographic_centroid (points : List (ℝ × ℝ)) : Centroid ℝ :=
  match points with
  | [] => { latitude := 0, longitude := 0 }
  | [p] => { latitude := p.1, longitude := p.2 }
  | _ =>
    let x := (points.map (fun p => Real.cos (radians p.1) * Real.cos (radians p.2))).sum
      / (points.length : ℝ)
    let y := (points.map (fun p => Real.cos (radians p.1) * Real.sin (radians p.2))).sum
      / (points.length : ℝ)
    let z := (points.map (fun p => Real.sin (radians p.1))).sum / (points.length : ℝ)
    let central_longitude := atan2 y x
    let central_square_root := Real.sqrt (x * x + y * y)
    let central_latitude := atan2 z central_square_root
    { latitude := degrees central_latitude, longitude := degrees central_longitude }

/-- The engine as the source runs it: the generic embedding
instantiated with the haversine distance and the spherical centroid of
haversine.py. -/
noncomputable def perform_kmeans_clustering_real (businesses : List (Business ℝ))
    (business_category : String) (sample_indices : List Nat)
    (num_clusters : Nat) (max_iterations : Nat) :
    Except SampleError (Result ℝ × Nat) :=
  KM.perform_kmeans_clustering haversine_distance calculate_geographic_centroid
    businesses business_category sample_indices num_clusters max_iterations

/-! ### Concrete computable instantiation used by witnesses and
counterexamples: coordinates, distances and scores in `ℚ`. -/

/-- A computable stand-in distance (taxicab on coordinates), used to
run the generic engine on concrete inputs. -/
def planarDist (lat1 lon1 lat2 lon2 : ℚ) : ℚ :=
  |lat1 - lat2| + |lon1 - lon2|

/-- A computable stand-in centroid function for concrete runs. -/
def centroidHead (points : List (ℚ × ℚ)) : Centroid ℚ :=
  match points with
  | [] => { latitude := 0, longitude := 0 }
  | p :: _ => { latitude := p.1, longitude := p.2 }

/-- A concrete business for witness runs. -/
def mkBiz (i : Nat) (cat zone : String) (lat lon : ℚ) : Business ℚ :=
  { business_id := i, business_name := "b", category := cat, street := "s",
    zone_type := zone, latitude := lat, longitude := lon }

/-- Concrete input: two Residential businesses within 2 km of the
origin and three Commercial ones at distance 3. -/
def splitZoneBusinesses : List (Business ℚ) :=
  [mkBiz 1 ("Cafe") ("Residential") 0 1, mkBiz 2 ("Cafe") ("Residential") 0 (-1),
   mkBiz 3 ("Shop") ("Commercial") 0 3, mkBiz 4 ("Shop") ("Commercial") 0 (-3),
   mkBiz 5 ("Shop") ("Commercial") 3 0]

/-- A single cluster centred at the origin holding the first of the
businesses above. -/
def originCluster : List (Cluster ℚ) :=
  [{ id := 0, centroid := { latitude := 0, longitude := 0 },
     points := [KM.mkPoint (mkBiz 1 ("Cafe") ("Residential") 0 1)], color := ("c") }]

/-- A fallback value used to name the result of a concrete successful
run. -/
def defaultResultQ : Result ℚ × Nat :=
  ({ clusters := [], recommended_location := { latitude := 0, longitude := 0 },
     zone_type := "", analysis := { totalBusinesses := 0, competitorCount := 0,
                                    opportunity := "", confidence := 0 },
     competitor_analysis := { nearest_competitor := none, distance_to_nearest := none,
                              competitors_within_500m := 0, competitors_within_1km := 0,
                              competitors_within_2km := 0, market_saturation := 0,
                              recommended_strategy := "" },
     nearby_businesses := [] }, 0)

/-- Three concrete businesses for witness runs. -/
def threeBusinesses : List (Business ℚ) :=
  [mkBiz 1 ("Cafe") ("Residential") 0 0, mkBiz 2 ("Cafe") ("Residential") 0 1,
   mkBiz 3 ("Shop") ("Commercial") 0 3]

/-- One empty and one inhabited cluster, for the update-pass witness. -/
def twoClusters : List (Cluster ℚ) :=
  [{ id := 0, centroid := { latitude := 5, longitude := 6 }, points := [], color := ("c0") },
   { id := 1, centroid := { latitude := 0, longitude := 0 },
     points := [KM.mkPoint (mkBiz 1 ("Cafe") ("Residential") 0 1)], color := ("c1") }]

/-- Two businesses at identical coordinates, so that two different
sampled indices yield the same initial centroids. -/
def dupCoordBusinesses : List (Business ℚ) :=
  [mkBiz 1 ("Cafe") ("Residential") 0 0, mkBiz 2 ("Shop") ("Commercial") 0 0]

/-- Ten same-category businesses at the origin, saturating the 1 km
competitor count. -/
def tenCafes : List (Business ℚ) :=
  (List.range 10).map (fun i => mkBiz i ("Cafe") ("Commercial") 0 0)

/-! ### Lemmas about the inner assignment loop -/

namespace KM

variable {δ : Type} [LinearOrderedField δ]

/-- Invariant of the minimum-scan fold: the final accumulator either is
the initial one or records the distance and index of some scanned pair;
no scanned pair is strictly closer than the final minimum; and the
final minimum is no larger than the initial one. -/
theorem foldl_minStep_spec (dist : δ → δ → δ → δ → δ) (plat plon : δ)
    (l : List (Nat × Centroid δ)) :
    ∀ acc : Option δ × Nat,
      (l.foldl (minStep dist plat plon) acc = acc ∨
        ∃ ic ∈ l, l.foldl (minStep dist plat plon) acc =
          (some (dist plat plon ic.2.latitude ic.2.longitude), ic.1)) ∧
      (∀ ic ∈ l,
        ltInf (dist plat plon ic.2.latitude ic.2.longitude)
          (l.foldl (minStep dist plat plon) acc).1 = false) ∧
      (∀ m, acc.1 = some m →
        ∃ m', (l.foldl (minStep dist plat plon) acc).1 = some m' ∧ m' ≤ m) := by
  induction l with
  | nil => exact fun acc => ⟨Or.inl rfl, by simp, fun m hm => ⟨m, hm, le_refl m⟩⟩
  | cons ic l ih =>
    intro acc
    rw [List.foldl_cons]
    set d := dist plat plon ic.2.latitude ic.2.longitude with hd
    by_cases hlt : ltInf d acc.1 = true
    · have hstep : minStep dist plat plon acc ic = (some d, ic.1) := by
        simp [minStep, hlt, hd]
      rw [hstep]
      obtain ⟨hprov, hmin, hmono⟩ := ih (some d, ic.1)
      refine ⟨?_, ?_, ?_⟩
      · rcases hprov with h | ⟨jc, hjc, hjc2⟩
        · exact Or.inr ⟨ic, List.mem_cons_self ic l, h⟩
        · exact Or.inr ⟨jc, List.mem_cons_of_mem ic hjc, hjc2⟩
      · intro jc hjc
        rcases List.mem_cons.mp hjc with h | h
        · subst h
          obtain ⟨m', hm', hle⟩ := hmono d rfl
          rw [hm']
          simp [ltInf, not_lt.mpr hle]
        · exact hmin jc h
      · intro m hm
        have hdm : d < m := by
          rw [hm] at hlt
          simpa [ltInf] using hlt
        obtain ⟨m', hm', hle⟩ := hmono d rfl
        exact ⟨m', hm', le_of_lt (lt_of_le_of_lt hle hdm)⟩
    · have hlt' : ltInf d acc.1 = false := by
        cases h : ltInf d acc.1
        · rfl
        · exact absurd h hlt
      have hstep : minStep dist plat plon acc ic = acc := by
        simp [minStep, hlt', hd]
      rw [hstep]
      obtain ⟨hprov, hmin, hmono⟩ := ih acc
      refine ⟨?_, ?_, ?_⟩
      · rcases hprov with h | ⟨jc, hjc, hjc2⟩
        · exact Or.inl h
        · exact Or.inr ⟨jc, List.mem_cons_of_mem ic hjc, hjc2⟩
      · intro jc hjc
        rcases List.mem_cons.mp hjc with h | h
        · subst h
          obtain ⟨m, hm⟩ : ∃ m, acc.1 = some m := by
            cases hacc : acc.1 with
            | none => rw [hacc] at hlt'; simp [ltInf] at hlt'
            | some m => exact ⟨m, rfl⟩
          have hdm : ¬ d < m := by
            rw [hm] at hlt'
            simpa [ltInf] using hlt'
          obtain ⟨m', hm', hle⟩ := hmono m hm
          rw [hm']
          simp [ltInf]
          exact le_trans hle (not_lt.mp hdm)
        · exact hmin jc h
      · intro m hm
        exact hmono m hm

/-- On a non-empty centroid list the scan returns an in-range index
whose centroid is at minimal distance from the scanned point. -/
theorem closestIndex_spec (dist : δ → δ → δ → δ → δ) (plat plon : δ)
    (centroids : List (Centroid δ)) (h : centroids ≠ []) :
    ∃ hlt : closestIndex dist plat plon centroids < centroids.length,
      ∀ j (hj : j < centroids.length),
        dist plat plon (centroids.get ⟨closestIndex dist plat plon centroids, hlt⟩).latitude
            (centroids.get ⟨closestIndex dist plat plon centroids, hlt⟩).longitude ≤
          dist plat plon (centroids.get ⟨j, hj⟩).latitude (centroids.get ⟨j, hj⟩).longitude := by
  obtain ⟨hprov, hmin, -⟩ :=
    foldl_minStep_spec dist plat plon centroids.enum ((none : Option δ), 0)
  have henum : centroids.enum ≠ [] := by
    intro he
    apply h
    have := List.enum_map_snd centroids
    rw [he] at this
    simpa using this.symm
  obtain ⟨ic0, hic0⟩ := List.exists_mem_of_ne_nil centroids.enum henum
  rcases hprov with hacc | ⟨ic, hic, hres⟩
  · exfalso
    have := hmin ic0 hic0
    rw [hacc] at this
    simp [ltInf] at this
  · have hget : centroids[ic.1]? = some ic.2 := List.mem_enum_iff_getElem?.mp hic
    have hlt : ic.1 < centroids.length := by
      rcases List.getElem?_eq_some.mp hget with ⟨hh, -⟩
      exact hh
    have hval : centroids[ic.1] = ic.2 := by
      rcases List.getElem?_eq_some.mp hget with ⟨hh, hv⟩
      exact hv
    have hidx : closestIndex dist plat plon centroids = ic.1 := by
      unfold closestIndex
      rw [hres]
    refine ⟨by rw [hidx]; exact hlt, ?_⟩
    intro j hj
    have hjmem : (j, centroids[j]) ∈ centroids.enum := by
      apply List.mem_enum_iff_getElem?.mpr
      exact List.getElem?_eq_getElem hj
    have hj2 := hmin (j, centroids[j]) hjmem
    rw [hres] at hj2
    simp only [ltInf, decide_eq_false_iff_not, not_lt] at hj2
    simpa [hidx, hval] using hj2

/-- The cluster scaffolding built in `assign_to_clusters` lines 83–91. -/
theorem assign_init_getElem (centroids : List (Centroid δ)) (i : Nat)
    (hi : i < centroids.length) :
    (centroids.enum.map (fun ic =>
      ({ id := ic.1, centroid := ic.2, points := [],
         color := CLUSTER_COLORS.getD (ic.1 % CLUSTER_COLORS.length) ("") } : Cluster δ)))[i]? =
      some { id := i, centroid := centroids.get ⟨i, hi⟩, points := [],
             color := CLUSTER_COLORS.getD (i % CLUSTER_COLORS.length) ("") } := by
  rw [List.getElem?_map, List.getElem?_enum, List.getElem?_eq_getElem hi]
  simp

/-- `assign_to_clusters` returns one cluster per centroid. -/
theorem assign_to_clusters_length (dist : δ → δ → δ → δ → δ)
    (points : List (BizPoint δ)) (centroids : List (Centroid δ)) (k : Nat) :
    (assign_to_clusters dist points centroids k).length = centroids.length := by
  have key : ∀ (l : List (BizPoint δ)) (cls : List (Cluster δ)),
      (List.foldl (fun cls p =>
        List.modify (fun c => { c with points := c.points ++ [p] })
          (closestIndex dist p.latitude p.longitude centroids) cls) cls l).length = cls.length := by
    intro l
    induction l with
    | nil => intro cls; rfl
    | cons p t ih =>
      intro cls
      rw [List.foldl_cons, ih]
      exact List.length_modify _ _ _
  simp only [assign_to_clusters]
  rw [key]
  simp

/-- Characterization of `assign_to_clusters`: the `i`-th output cluster
keeps its scaffolding fields and collects, in input order, exactly the
points whose closest centroid (first minimum) is the `i`-th one. -/
theorem assign_to_clusters_getElem (dist : δ → δ → δ → δ → δ)
    (points : List (BizPoint δ)) (centroids : List (Centroid δ)) (k : Nat)
    (i : Nat) (hi : i < centroids.length) :
    (assign_to_clusters dist points centroids k)[i]? =
      some { id := i, centroid := centroids.get ⟨i, hi⟩,
             points := points.filter (fun p =>
               decide (closestIndex dist p.latitude p.longitude centroids = i)),
             color := CLUSTER_COLORS.getD (i % CLUSTER_COLORS.length) ("") } := by
  induction points using List.reverseRecOn with
  | nil =>
    simp only [assign_to_clusters, List.foldl_nil]
    rw [assign_init_getElem centroids i hi]
    rfl
  | append_singleton l p ih =>
    simp only [assign_to_clusters] at ih
    unfold assign_to_clusters
    rw [List.foldl_append, List.foldl_cons, List.foldl_nil, List.getElem?_modify, ih]
    by_cases hji : closestIndex dist p.latitude p.longitude centroids = i
    · simp [hji, List.filter_append]
    · simp [hji, List.filter_append]

/-- Appending a point to the member list of one cluster grows the
multiset of all members by exactly that point. -/
theorem points_sum_modify (p : BizPoint δ) (cls : List (Cluster δ)) (j : Nat)
    (hj : j < cls.length) :
    ((List.modify (fun c => { c with points := c.points ++ [p] }) j cls).map
      (fun c => (c.points : Multiset (BizPoint δ)))).sum =
    ((cls.map (fun c => (c.points : Multiset (BizPoint δ)))).sum + {p}) := by
  induction cls generalizing j with
  | nil => simp at hj
  | cons c cs ih =>
    cases j with
    | zero =>
      rw [show List.modify (fun c => { c with points := c.points ++ [p] }) 0 (c :: cs) =
        { c with points := c.points ++ [p] } :: cs from rfl]
      simp only [List.map_cons, List.sum_cons]
      rw [← Multiset.coe_add]
      rw [show ((([p] : List (BizPoint δ)) : Multiset (BizPoint δ))) = {p} from rfl]
      rw [add_assoc, add_comm ({p} : Multiset (BizPoint δ)), ← add_assoc]
    | succ j =>
      rw [show List.modify (fun c => { c with points := c.points ++ [p] }) (j + 1) (c :: cs) =
        c :: List.modify (fun c => { c with points := c.points ++ [p] }) j cs from rfl]
      simp only [List.map_cons, List.sum_cons]
      rw [ih j (Nat.lt_of_succ_lt_succ hj), ← add_assoc]

/-- Partition invariant, multiset half: for a non-empty centroid list
the members of all clusters returned by `assign_to_clusters` form
exactly the input point list (no duplication, no loss). -/
theorem assign_to_clusters_points_sum (dist : δ → δ → δ → δ → δ)
    (points : List (BizPoint δ)) (centroids : List (Centroid δ)) (k : Nat)
    (h : centroids ≠ []) :
    ((assign_to_clusters dist points centroids k).map
      (fun c => (c.points : Multiset (BizPoint δ)))).sum =
      (points : Multiset (BizPoint δ)) := by
  have key : ∀ (l : List (BizPoint δ)) (cls : List (Cluster δ)),
      cls.length = centroids.length →
      ((List.foldl (fun cls p =>
          List.modify (fun c => { c with points := c.points ++ [p] })
            (closestIndex dist p.latitude p.longitude centroids) cls) cls l).map
        (fun c => (c.points : Multiset (BizPoint δ)))).sum =
      ((cls.map (fun c => (c.points : Multiset (BizPoint δ)))).sum +
        (l : Multiset (BizPoint δ))) := by
    intro l
    induction l with
    | nil => intro cls _; simp
    | cons p t ih =>
      intro cls hlen
      rw [List.foldl_cons]
      obtain ⟨hlt, -⟩ := closestIndex_spec dist p.latitude p.longitude centroids h
      have hlen' :
          (List.modify (fun c => { c with points := c.points ++ [p] })
            (closestIndex dist p.latitude p.longitude centroids) cls).length =
            centroids.length := by
        rw [List.length_modify]; exact hlen
      rw [ih _ hlen']
      rw [points_sum_modify p cls _ (by rw [hlen]; exact hlt)]
      rw [← Multiset.cons_coe, ← Multiset.singleton_add, add_assoc]
  unfold assign_to_clusters
  rw [key _ _ (by simp)]
  have hinit : ((centroids.enum.map (fun ic =>
      ({ id := ic.1, centroid := ic.2, points := [],
         color := CLUSTER_COLORS.getD (ic.1 % CLUSTER_COLORS.length) ("") } : Cluster δ))).map
      (fun c => (c.points : Multiset (BizPoint δ)))).sum = 0 := by
    rw [List.map_map]
    have : ∀ m : List (Nat × Centroid δ),
        ((m.map ((fun c => (c.points : Multiset (BizPoint δ))) ∘ (fun ic =>
          ({ id := ic.1, centroid := ic.2, points := [],
             color := CLUSTER_COLORS.getD (ic.1 % CLUSTER_COLORS.length) ("") } : Cluster δ)))).sum) = 0 := by
      intro m
      induction m with
      | nil => simp
      | cons a t ihm => simpa using ihm
    exact this _
  rw [hinit, zero_add]

/-- Partition invariant, uniqueness half: every input point is a member
of exactly one output cluster. -/
theorem assign_to_clusters_exactly_one (dist : δ → δ → δ → δ → δ)
    (points : List (BizPoint δ)) (centroids : List (Centroid δ)) (k : Nat)
    (h : centroids ≠ []) (q : BizPoint δ) (hq : q ∈ points) :
    ∃! c, c ∈ assign_to_clusters dist points centroids k ∧ q ∈ c.points := by
  obtain ⟨hlt, -⟩ := closestIndex_spec dist q.latitude q.longitude centroids h
  have hchar := assign_to_clusters_getElem dist points centroids k
    (closestIndex dist q.latitude q.longitude centroids) hlt
  refine ⟨_, ⟨List.getElem?_mem hchar, ?_⟩, ?_⟩
  · simp only [List.mem_filter]
    exact ⟨hq, by simp⟩
  · rintro c' ⟨hc'mem, hc'q⟩
    obtain ⟨i, hi, hval⟩ := List.mem_iff_getElem.mp hc'mem
    have hi' : i < centroids.length := by
      rw [← assign_to_clusters_length dist points centroids k]; exact hi
    have hchar' := assign_to_clusters_getElem dist points centroids k i hi'
    rw [List.getElem?_eq_getElem hi, hval] at hchar'
    have hc' := Option.some_injective _ hchar'
    rw [hc'] at hc'q
    simp only [List.mem_filter, decide_eq_true_eq] at hc'q
    obtain ⟨-, hiq⟩ := hc'q
    subst hiq
    exact hc'

/-- `recalculate_centroids` returns one centroid per cluster. -/
theorem recalculate_centroids_length (centroidFn : List (δ × δ) → Centroid δ)
    (clusters : List (Cluster δ)) :
    (recalculate_centroids centroidFn clusters).length = clusters.length := by
  simp [recalculate_centroids]

/-- The centroid list held when the iteration loop stops has the length
it started with. -/
theorem kmeansLoop_centroids_length (dist : δ → δ → δ → δ → δ)
    (centroidFn : List (δ × δ) → Centroid δ) (points : List (BizPoint δ)) (k : Nat) :
    ∀ (fuel : Nat) (cens : List (Centroid δ)) (cls : List (Cluster δ)) (it : Nat),
      (kmeansLoop dist centroidFn points k cens cls it fuel).2.1.length = cens.length := by
  intro fuel
  induction fuel with
  | zero => intro cens cls it; rfl
  | succ fuel ih =>
    intro cens cls it
    simp only [kmeansLoop]
    split
    · rfl
    · rw [ih]
      rw [recalculate_centroids_length, assign_to_clusters_length]

/-- The iteration counter stays within the remaining fuel, and at least
one pass is counted when there is fuel to run one. -/
theorem kmeansLoop_iterations (dist : δ → δ → δ → δ → δ)
    (centroidFn : List (δ × δ) → Centroid δ) (points : List (BizPoint δ)) (k : Nat) :
    ∀ (fuel : Nat) (cens : List (Centroid δ)) (cls : List (Cluster δ)) (it : Nat),
      (kmeansLoop dist centroidFn points k cens cls it fuel).2.2 ≤ it + fuel ∧
      (1 ≤ fuel → it + 1 ≤ (kmeansLoop dist centroidFn points k cens cls it fuel).2.2) := by
  intro fuel
  induction fuel with
  | zero =>
    intro cens cls it
    exact ⟨Nat.le_refl _, fun h => absurd h (by simp)⟩
  | succ fuel ih =>
    intro cens cls it
    simp only [kmeansLoop]
    split
    · exact ⟨show it + 1 ≤ it + (fuel + 1) by omega, fun _ => Nat.le_refl _⟩
    · obtain ⟨h1, h2⟩ := ih (recalculate_centroids centroidFn (assign_to_clusters dist points cens k))
        (assign_to_clusters dist points cens k) (it + 1)
      refine ⟨by omega, fun _ => ?_⟩
      rcases Nat.eq_zero_or_pos fuel with hf | hf
      · subst hf; exact Nat.le_refl _
      · exact le_trans (Nat.le_succ _) (h2 hf)

/-- After at least one pass, the returned clusters are the output of an
assignment pass against some centroid list of the initial length. -/
theorem kmeansLoop_clusters_shape (dist : δ → δ → δ → δ → δ)
    (centroidFn : List (δ × δ) → Centroid δ) (points : List (BizPoint δ)) (k : Nat) :
    ∀ (fuel : Nat) (cens : List (Centroid δ)) (cls : List (Cluster δ)) (it : Nat),
      1 ≤ fuel →
      ∃ cen, cen.length = cens.length ∧
        (kmeansLoop dist centroidFn points k cens cls it fuel).1 =
          assign_to_clusters dist points cen k := by
  intro fuel
  induction fuel with
  | zero => intro cens cls it h; exact absurd h (by simp)
  | succ fuel ih =>
    intro cens cls it _
    simp only [kmeansLoop]
    split
    · exact ⟨cens, rfl, rfl⟩
    · rcases Nat.eq_zero_or_pos fuel with hf | hf
      · subst hf
        exact ⟨cens, rfl, rfl⟩
      · obtain ⟨cen, hlen, heq⟩ := ih
          (recalculate_centroids centroidFn (assign_to_clusters dist points cens k))
          (assign_to_clusters dist points cens k) (it + 1) hf
        refine ⟨cen, ?_, heq⟩
        rw [hlen, recalculate_centroids_length, assign_to_clusters_length]

/-- If the loop stops with iteration count strictly below its budget,
it stopped through the convergence `break`, so the returned clusters
are exactly the assignment against the returned centroid list. -/
theorem kmeansLoop_early_stop (dist : δ → δ → δ → δ → δ)
    (centroidFn : List (δ × δ) → Centroid δ) (points : List (BizPoint δ)) (k : Nat) :
    ∀ (fuel : Nat) (cens : List (Centroid δ)) (cls : List (Cluster δ)) (it : Nat),
      (kmeansLoop dist centroidFn points k cens cls it fuel).2.2 < it + fuel →
      (kmeansLoop dist centroidFn points k cens cls it fuel).1 =
        assign_to_clusters dist points
          (kmeansLoop dist centroidFn points k cens cls it fuel).2.1 k := by
  intro fuel
  induction fuel with
  | zero =>
    intro cens cls it h
    simp only [kmeansLoop] at h
    exact absurd h (by omega)
  | succ fuel ih =>
    intro cens cls it h
    simp only [kmeansLoop] at h ⊢
    split
    · rfl
    · rename_i hcond
      rw [if_neg hcond] at h
      exact ih (recalculate_centroids centroidFn (assign_to_clusters dist points cens k))
        (assign_to_clusters dist points cens k) (it + 1) (by omega)

/-- A successful draw returns one centroid per sampled index. -/
theorem initialize_centroids_ok_length (points : List (BizPoint δ)) (k : Nat)
    (idx : List Nat) (cen0 : List (Centroid δ))
    (h : initialize_centroids points k idx = Except.ok cen0) :
    cen0.length = idx.length := by
  unfold initialize_centroids at h
  split at h
  · cases h
  · injection h with h
    rw [← h]
    simp

/-- Dissection of a successful `perform_kmeans_clustering` run into its
stages. -/
theorem perform_ok_elim (dist : δ → δ → δ → δ → δ)
    (centroidFn : List (δ × δ) → Centroid δ) (businesses : List (Business δ))
    (cat : String) (idx : List Nat) (k maxit : Nat) (pr : Result δ × Nat)
    (h : perform_kmeans_clustering dist centroidFn businesses cat idx k maxit =
      Except.ok pr) :
    ∃ cen0,
      initialize_centroids (businesses.map mkPoint) k idx = Except.ok cen0 ∧
      pr.1 = find_optimal_location dist centroidFn businesses cat
        ((kmeansLoop dist centroidFn (businesses.map mkPoint) k cen0 [] 0 maxit).1.enum.map
          (fun ic => { ic.2 with
                       centroid := (kmeansLoop dist centroidFn (businesses.map mkPoint)
                                     k cen0 [] 0 maxit).2.1.getD ic.1 ic.2.centroid })) ∧
      pr.2 = (kmeansLoop dist centroidFn (businesses.map mkPoint) k cen0 [] 0 maxit).2.2 := by
  unfold perform_kmeans_clustering at h
  simp only [] at h
  split at h
  · cases h
  · rename_i cen0 heq
    injection h with h
    exact ⟨cen0, heq, by rw [← h], by rw [← h]⟩

/-- `find_optimal_location` formats the clusters it is given, in
order. -/
theorem find_optimal_location_clusters (dist : δ → δ → δ → δ → δ)
    (centroidFn : List (δ × δ) → Centroid δ) (businesses : List (Business δ))
    (cat : String) (clusters : List (Cluster δ)) :
    (find_optimal_location dist centroidFn businesses cat clusters).clusters =
      clusters.map formatCluster := rfl

/-- Writing the final centroid list back into the clusters (lines
55–56) changes no member list. -/
theorem upd_map_points (cls : List (Cluster δ)) (cenL : List (Centroid δ)) :
    ((cls.enum.map (fun ic =>
      { ic.2 with centroid := cenL.getD ic.1 ic.2.centroid })).map (fun c => c.points)) =
    cls.map (fun c => c.points) := by
  rw [List.map_map]
  have hcomp : ((fun c : Cluster δ => c.points) ∘ (fun ic : Nat × Cluster δ =>
      { ic.2 with centroid := cenL.getD ic.1 ic.2.centroid })) =
      (fun c : Cluster δ => c.points) ∘ Prod.snd := rfl
  rw [hcomp, ← List.map_map, List.enum_map_snd]

/-- Element view of the centroid write-back. -/
theorem upd_getElem (cls : List (Cluster δ)) (cenL : List (Centroid δ)) (i : Nat)
    (hi : i < cls.length) :
    ((cls.enum.map (fun ic =>
      { ic.2 with centroid := cenL.getD ic.1 ic.2.centroid })))[i]? =
    some { cls.get ⟨i, hi⟩ with
           centroid := cenL.getD i (cls.get ⟨i, hi⟩).centroid } := by
  rw [List.getElem?_map, List.getElem?_enum, List.getElem?_eq_getElem hi]
  rfl

/-- The clusters of a successful run are, up to formatting and the
centroid write-back, the clusters of an assignment pass against a
non-empty centroid list: element view. -/
theorem perform_ok_clusters_view (dist : δ → δ → δ → δ → δ)
    (centroidFn : List (δ × δ) → Centroid δ) (businesses : List (Business δ))
    (cat : String) (idx : List Nat) (k maxit : Nat) (pr : Result δ × Nat)
    (hidx : idx ≠ []) (hmax : 1 ≤ maxit)
    (h : perform_kmeans_clustering dist centroidFn businesses cat idx k maxit =
      Except.ok pr) :
    ∃ (cen : List (Centroid δ)) (cenL : List (Centroid δ)),
      cen ≠ [] ∧
      pr.1.clusters =
        ((assign_to_clusters dist (businesses.map mkPoint) cen k).enum.map
          (fun ic => { ic.2 with centroid := cenL.getD ic.1 ic.2.centroid })).map
          formatCluster := by
  obtain ⟨cen0, hinit, hpr1, -⟩ :=
    perform_ok_elim dist centroidFn businesses cat idx k maxit pr h
  obtain ⟨cen, hcenlen, hclusters⟩ :=
    kmeansLoop_clusters_shape dist centroidFn (businesses.map mkPoint) k maxit cen0 [] 0 hmax
  have hcen0len : cen0.length = idx.length :=
    initialize_centroids_ok_length (businesses.map mkPoint) k idx cen0 hinit
  have hcenne : cen ≠ [] := by
    intro hnil
    apply hidx
    apply List.eq_nil_of_length_eq_zero
    rw [← hcen0len, ← hcenlen, hnil]
    rfl
  refine ⟨cen, (kmeansLoop dist centroidFn (businesses.map mkPoint) k cen0 [] 0 maxit).2.1,
    hcenne, ?_⟩
  rw [hpr1, find_optimal_location_clusters, hclusters]

/-- C1.  Partition invariant: for every successful clustering run (at
least one sampled index, at least one allowed pass), the members of the
output clusters are exactly the formatted input points — nothing is
lost or duplicated — and every input point is a member of exactly one
output cluster. -/
theorem C1_partition_invariant (dist : δ → δ → δ → δ → δ)
    (centroidFn : List (δ × δ) → Centroid δ) (businesses : List (Business δ))
    (cat : String) (idx : List Nat) (k maxit : Nat) (pr : Result δ × Nat)
    (hidx : idx ≠ []) (hmax : 1 ≤ maxit)
    (h : perform_kmeans_clustering dist centroidFn businesses cat idx k maxit =
      Except.ok pr) :
    ((pr.1.clusters.map (fun c => (c.points : Multiset (FormattedPoint δ)))).sum =
      (((businesses.map mkPoint).map formatPoint : List (FormattedPoint δ)) :
        Multiset (FormattedPoint δ))) ∧
    ∀ b ∈ businesses,
      ∃! fc, fc ∈ pr.1.clusters ∧ formatPoint (mkPoint b) ∈ fc.points := by
  obtain ⟨cen, cenL, hcenne, hclusters_eq⟩ :=
    perform_ok_clusters_view dist centroidFn businesses cat idx k maxit pr hidx hmax h
  set points := businesses.map mkPoint with hpoints
  constructor
  · rw [hclusters_eq, List.map_map]
    have h1 : ((fun c : FormattedCluster δ => (c.points : Multiset (FormattedPoint δ))) ∘
        formatCluster) =
        ((fun s : Multiset (BizPoint δ) => Multiset.map formatPoint s) ∘
          (fun c : Cluster δ => (c.points : Multiset (BizPoint δ)))) := by
      funext c
      simp [formatCluster, Multiset.map_coe]
    rw [h1, ← List.map_map]
    rw [show (fun s : Multiset (BizPoint δ) => Multiset.map formatPoint s) =
      (Multiset.mapAddMonoidHom formatPoint : Multiset (BizPoint δ) → Multiset (FormattedPoint δ))
      from rfl]
    rw [← map_list_sum (Multiset.mapAddMonoidHom formatPoint)]
    have h2 : (((assign_to_clusters dist points cen k).enum.map
        (fun ic => { ic.2 with centroid := cenL.getD ic.1 ic.2.centroid })).map
        (fun c : Cluster δ => (c.points : Multiset (BizPoint δ)))) =
        ((assign_to_clusters dist points cen k).map
          (fun c : Cluster δ => (c.points : Multiset (BizPoint δ)))) := by
      rw [show (fun c : Cluster δ => (c.points : Multiset (BizPoint δ))) =
        ((fun l : List (BizPoint δ) => (l : Multiset (BizPoint δ))) ∘ (fun c : Cluster δ => c.points))
        from rfl]
      rw [← List.map_map, upd_map_points, List.map_map]
    rw [h2, assign_to_clusters_points_sum dist points cen k hcenne]
    simp [Multiset.map_coe]
  · intro b hb
    have hq : mkPoint b ∈ points := List.mem_map_of_mem mkPoint hb
    obtain ⟨hjlt, -⟩ := closestIndex_spec dist (mkPoint b).latitude (mkPoint b).longitude cen hcenne
    set j := closestIndex dist (mkPoint b).latitude (mkPoint b).longitude cen with hj
    have hjlt' : j < (assign_to_clusters dist points cen k).length := by
      rw [assign_to_clusters_length]; exact hjlt
    have hCj := assign_to_clusters_getElem dist points cen k j hjlt
    have hCjget : (assign_to_clusters dist points cen k).get ⟨j, hjlt'⟩ =
        { id := j, centroid := cen.get ⟨j, hjlt⟩,
          points := points.filter (fun p =>
            decide (closestIndex dist p.latitude p.longitude cen = j)),
          color := CLUSTER_COLORS.getD (j % CLUSTER_COLORS.length) ("") } := by
      have := List.getElem?_eq_getElem hjlt'
      rw [hCj] at this
      exact (Option.some_injective _ this).symm
    have hupd := upd_getElem (assign_to_clusters dist points cen k) cenL j hjlt'
    rw [hclusters_eq]
    refine ⟨formatCluster { (assign_to_clusters dist points cen k).get ⟨j, hjlt'⟩ with
      centroid := cenL.getD j ((assign_to_clusters dist points cen k).get ⟨j, hjlt'⟩).centroid },
      ⟨?_, ?_⟩, ?_⟩
    · apply List.getElem?_mem
      rw [List.getElem?_map, hupd]
      rfl
    · show formatPoint (mkPoint b) ∈ _
      rw [hCjget]
      simp only [formatCluster]
      apply List.mem_map_of_mem
      simp only [List.mem_filter]
      exact ⟨hq, by simp⟩
    · rintro fc' ⟨hfc'mem, hfc'q⟩
      obtain ⟨i, hi, hval⟩ := List.mem_iff_getElem.mp hfc'mem
      have hi2 : i < (assign_to_clusters dist points cen k).length := by
        have := hi
        simpa using this
      have hi3 : i < cen.length := by
        rw [← assign_to_clusters_length dist points cen k]; exact hi2
      have hupdi := upd_getElem (assign_to_clusters dist points cen k) cenL i hi2
      have hCi := assign_to_clusters_getElem dist points cen k i hi3
      have hCiget : (assign_to_clusters dist points cen k).get ⟨i, hi2⟩ =
          { id := i, centroid := cen.get ⟨i, hi3⟩,
            points := points.filter (fun p =>
              decide (closestIndex dist p.latitude p.longitude cen = i)),
            color := CLUSTER_COLORS.getD (i % CLUSTER_COLORS.length) ("") } := by
        have hsome := List.getElem?_eq_getElem hi2
        rw [hCi] at hsome
        exact (Option.some_injective _ hsome).symm
      have hfc' : formatCluster
          { (assign_to_clusters dist points cen k).get ⟨i, hi2⟩ with
            centroid := cenL.getD i
              ((assign_to_clusters dist points cen k).get ⟨i, hi2⟩).centroid } = fc' := by
        have hv2 := List.getElem?_eq_getElem hi
        rw [hval, List.getElem?_map, hupdi] at hv2
        exact Option.some_injective _ hv2
      rw [← hfc'] at hfc'q
      rw [hCiget] at hfc'q
      simp only [formatCluster] at hfc'q
      obtain ⟨q', hq'mem, hq'eq⟩ := List.mem_map.mp hfc'q
      simp only [List.mem_filter, decide_eq_true_eq] at hq'mem
      obtain ⟨-, hclosest⟩ := hq'mem
      have hlat : q'.latitude = (mkPoint b).latitude :=
        congrArg FormattedPoint.latitude hq'eq
      have hlon : q'.longitude = (mkPoint b).longitude :=
        congrArg FormattedPoint.longitude hq'eq
      rw [hlat, hlon] at hclosest
      have hij : i = j := by rw [hj]; exact hclosest.symm
      subst hij
      rw [← hfc']

/-- C3.  Termination bound and iteration reporting: a successful run
always reports at most `max_iterations` executed passes, and, as soon
as at least one pass is allowed, at least one pass is executed and
counted (the count is 1-indexed, including the final converging
pass). -/
theorem C3_iteration_bound (dist : δ → δ → δ → δ → δ)
    (centroidFn : List (δ × δ) → Centroid δ) (businesses : List (Business δ))
    (cat : String) (idx : List Nat) (k maxit : Nat) (pr : Result δ × Nat)
    (h : perform_kmeans_clustering dist centroidFn businesses cat idx k maxit =
      Except.ok pr) :
    pr.2 ≤ maxit ∧ (1 ≤ maxit → 1 ≤ pr.2) := by
  obtain ⟨cen0, hinit, hpr1, hpr2⟩ :=
    perform_ok_elim dist centroidFn businesses cat idx k maxit pr h
  obtain ⟨h1, h2⟩ :=
    kmeansLoop_iterations dist centroidFn (businesses.map mkPoint) k maxit cen0 [] 0
  rw [hpr2]
  exact ⟨by omega, fun hm => by have := h2 hm; omega⟩

/-- C4.  Empty-cluster centroid stability: an update pass keeps one
centroid per cluster; a cluster with no members keeps its previous
centroid unchanged, while a cluster with members gets the centroid of
its members. -/
theorem C4_empty_cluster_centroid (centroidFn : List (δ × δ) → Centroid δ)
    (clusters : List (Cluster δ)) (i : Nat) (hi : i < clusters.length) :
    (recalculate_centroids centroidFn clusters).length = clusters.length ∧
    ((clusters.get ⟨i, hi⟩).points = [] →
      (recalculate_centroids centroidFn clusters)[i]? =
        some (clusters.get ⟨i, hi⟩).centroid) ∧
    ((clusters.get ⟨i, hi⟩).points ≠ [] →
      (recalculate_centroids centroidFn clusters)[i]? =
        some (centroidFn ((clusters.get ⟨i, hi⟩).points.map
          (fun p => (p.latitude, p.longitude))))) := by
  refine ⟨recalculate_centroids_length _ _, ?_, ?_⟩
  · intro hp
    simp only [List.get_eq_getElem] at hp
    unfold recalculate_centroids
    rw [List.getElem?_map, List.getElem?_eq_getElem hi]
    simp [hp]
  · intro hp
    simp only [List.get_eq_getElem] at hp
    unfold recalculate_centroids
    rw [List.getElem?_map, List.getElem?_eq_getElem hi]
    simp [hp]

/-- `random.sample` fails when the requested sample exceeds the
population. -/
theorem initialize_centroids_err (points : List (BizPoint δ)) (k : Nat)
    (idx : List Nat) (hk : points.length < k) :
    initialize_centroids points k idx = Except.error SampleError.valueError := by
  unfold initialize_centroids
  rw [if_pos hk]

/-- C2 (amended).  The engine itself does not validate the `[2,10]`
range: a call with `k` exceeding the number of points fails with the
`ValueError` of `random.sample` (not a dedicated parameter error), and
the range bound is enforced only by the request layer, whose validator
rejects `num_clusters = 1` before the engine can run. -/
theorem C2_k_guard :
    (∀ {γ : Type} [inst : LinearOrderedField γ] (dist : γ → γ → γ → γ → γ)
      (centroidFn : List (γ × γ) → Centroid γ) (businesses : List (Business γ))
      (cat : String) (idx : List Nat) (k maxit : Nat),
      businesses.length < k →
      perform_kmeans_clustering dist centroidFn businesses cat idx k maxit =
        Except.error SampleError.valueError) ∧
    num_clusters_valid 1 = false := by
  constructor
  · intro γ inst dist centroidFn businesses cat idx k maxit hk
    unfold perform_kmeans_clustering
    simp only []
    rw [initialize_centroids_err _ _ _ (by simpa using hk)]
  · decide

/-- C2 counterexample: the engine, called directly with `k = 1`
(outside the claimed `[2,10]` precondition) on three points, returns a
clustering result instead of failing with any error. -/
theorem C2_counterexample :
    (perform_kmeans_clustering planarDist centroidHead
      [mkBiz 1 ("Cafe") ("Residential") 0 0, mkBiz 2 ("Cafe") ("Residential") 0 1,
       mkBiz 3 ("Shop") ("Commercial") 0 3] ("Cafe") [0] 1 100).isOk = true := by
  with_unfolding_all decide

/-- C5.  The sampled indices of `initialize_centroids` are the only
stochastic input of the engine: two runs whose draws produce the same
initial centroids coincide in every output (clusters, recommendation,
analysis and iteration count). -/
theorem C5_determinism_modulo_sampling (dist : δ → δ → δ → δ → δ)
    (centroidFn : List (δ × δ) → Centroid δ) (businesses : List (Business δ))
    (cat : String) (idx1 idx2 : List Nat) (k maxit : Nat)
    (hsame : initialize_centroids (businesses.map mkPoint) k idx1 =
      initialize_centroids (businesses.map mkPoint) k idx2) :
    perform_kmeans_clustering dist centroidFn businesses cat idx1 k maxit =
      perform_kmeans_clustering dist centroidFn businesses cat idx2 k maxit := by
  unfold perform_kmeans_clustering
  simp only []
  rw [hsame]

/-- getElem-based form of the minimality of `closestIndex`. -/
theorem closestIndex_min_getElem (dist : δ → δ → δ → δ → δ) (plat plon : δ)
    (cens : List (Centroid δ)) (h : cens ≠ []) (i j : Nat) (ci cj : Centroid δ)
    (hci : closestIndex dist plat plon cens = i)
    (hgi : cens[i]? = some ci) (hgj : cens[j]? = some cj) :
    dist plat plon ci.latitude ci.longitude ≤
      dist plat plon cj.latitude cj.longitude := by
  obtain ⟨hlt, hmin⟩ := closestIndex_spec dist plat plon cens h
  subst hci
  obtain ⟨hj', hvj⟩ := List.getElem?_eq_some.mp hgj
  obtain ⟨hi', hvi⟩ := List.getElem?_eq_some.mp hgi
  have hm := hmin j hj'
  simpa [List.get_eq_getElem, hvi, hvj] using hm

/-- C10.  When a run stops through the convergence check strictly
before exhausting its iteration budget, the reported centroids are the
ones used in the final assignment pass, so every member of an output
cluster is at least as close to its own cluster's reported centroid as
to any other output cluster's reported centroid. -/
theorem C10_converged_output_consistency (dist : δ → δ → δ → δ → δ)
    (centroidFn : List (δ × δ) → Centroid δ) (businesses : List (Business δ))
    (cat : String) (idx : List Nat) (k maxit : Nat) (pr : Result δ × Nat)
    (hidx : idx ≠ [])
    (h : perform_kmeans_clustering dist centroidFn businesses cat idx k maxit =
      Except.ok pr)
    (hconv : pr.2 < maxit) :
    ∀ ci ∈ pr.1.clusters, ∀ p ∈ ci.points, ∀ cj ∈ pr.1.clusters,
      dist p.latitude p.longitude ci.centroid.latitude ci.centroid.longitude ≤
        dist p.latitude p.longitude cj.centroid.latitude cj.centroid.longitude := by
  obtain ⟨cen0, hinit, hpr1, hpr2⟩ :=
    perform_ok_elim dist centroidFn businesses cat idx k maxit pr h
  set points := businesses.map mkPoint with hpoints
  have hearly := kmeansLoop_early_stop dist centroidFn points k maxit cen0 [] 0
    (by rw [← hpr2]; omega)
  set r := kmeansLoop dist centroidFn points k cen0 [] 0 maxit with hr
  set cen := r.2.1 with hcen
  have hcenlen : cen.length = cen0.length :=
    kmeansLoop_centroids_length dist centroidFn points k maxit cen0 [] 0
  have hcen0len : cen0.length = idx.length :=
    initialize_centroids_ok_length points k idx cen0 hinit
  have hcenne : cen ≠ [] := by
    intro hnil
    apply hidx
    apply List.eq_nil_of_length_eq_zero
    rw [← hcen0len, ← hcenlen, hnil]
    rfl
  have hr1len : r.1.length = cen.length := by
    rw [hearly]
    exact assign_to_clusters_length dist points cen k
  have hcl : pr.1.clusters =
      (r.1.enum.map (fun ic =>
        { ic.2 with centroid := cen.getD ic.1 ic.2.centroid })).map formatCluster := by
    rw [hpr1, find_optimal_location_clusters]
  rw [hcl]
  rintro ci hcimem p hp cj hcjmem
  obtain ⟨i, hi, hvi⟩ := List.mem_iff_getElem.mp hcimem
  obtain ⟨j, hj, hvj⟩ := List.mem_iff_getElem.mp hcjmem
  have hi2 : i < r.1.length := by simpa using hi
  have hj2 : j < r.1.length := by simpa using hj
  have hi3 : i < cen.length := hr1len ▸ hi2
  have hj3 : j < cen.length := hr1len ▸ hj2
  have hci_val : ci = formatCluster
      { r.1.get ⟨i, hi2⟩ with
        centroid := cen.getD i (r.1.get ⟨i, hi2⟩).centroid } := by
    have hv2 := List.getElem?_eq_getElem hi
    rw [hvi, List.getElem?_map, upd_getElem r.1 cen i hi2] at hv2
    exact (Option.some_injective _ hv2).symm
  have hcj_val : cj = formatCluster
      { r.1.get ⟨j, hj2⟩ with
        centroid := cen.getD j (r.1.get ⟨j, hj2⟩).centroid } := by
    have hv2 := List.getElem?_eq_getElem hj
    rw [hvj, List.getElem?_map, upd_getElem r.1 cen j hj2] at hv2
    exact (Option.some_injective _ hv2).symm
  have hCi : r.1.get ⟨i, hi2⟩ =
      { id := i, centroid := cen.get ⟨i, hi3⟩,
        points := points.filter (fun q =>
          decide (closestIndex dist q.latitude q.longitude cen = i)),
        color := CLUSTER_COLORS.getD (i % CLUSTER_COLORS.length) ("") } := by
    have hs := List.getElem?_eq_getElem hi2
    have hC := assign_to_clusters_getElem dist points cen k i hi3
    rw [← hearly] at hC
    rw [hC] at hs
    exact (Option.some_injective _ hs).symm
  have hgdi : cen.getD i (r.1.get ⟨i, hi2⟩).centroid = cen.get ⟨i, hi3⟩ := by
    rw [List.getD_eq_getElem?_getD, List.getElem?_eq_getElem hi3]
    rfl
  have hgdj : cen.getD j (r.1.get ⟨j, hj2⟩).centroid = cen.get ⟨j, hj3⟩ := by
    rw [List.getD_eq_getElem?_getD, List.getElem?_eq_getElem hj3]
    rfl
  have hcicent : ci.centroid = cen.get ⟨i, hi3⟩ := by
    rw [hci_val]
    exact hgdi
  have hcjcent : cj.centroid = cen.get ⟨j, hj3⟩ := by
    rw [hcj_val]
    exact hgdj
  have hcipoints : ci.points =
      (points.filter (fun q =>
        decide (closestIndex dist q.latitude q.longitude cen = i))).map formatPoint := by
    rw [hci_val]
    show (r.1.get ⟨i, hi2⟩).points.map formatPoint = _
    rw [hCi]
  rw [hcipoints] at hp
  obtain ⟨q, hqmem, hqeq⟩ := List.mem_map.mp hp
  simp only [List.mem_filter, decide_eq_true_eq] at hqmem
  obtain ⟨-, hqclosest⟩ := hqmem
  have hlat : q.latitude = p.latitude := congrArg FormattedPoint.latitude hqeq
  have hlon : q.longitude = p.longitude := congrArg FormattedPoint.longitude hqeq
  rw [← hlat, ← hlon, hcicent, hcjcent]
  exact closestIndex_min_getElem dist q.latitude q.longitude cen hcenne i j _ _
    hqclosest (List.getElem?_eq_getElem hi3) (List.getElem?_eq_getElem hj3)

/-- C7 (amended).  The recommended zone type is Commercial exactly when
at least 3 of the first 5 entries of the distance-sorted list of
businesses within 2 km of the recommended location are Commercial. -/
theorem C7_zone_type_within2km (dist : δ → δ → δ → δ → δ)
    (centroidFn : List (δ × δ) → Centroid δ) (businesses : List (Business δ))
    (cat : String) (clusters : List (Cluster δ)) :
    (find_optimal_location dist centroidFn businesses cat clusters).zone_type =
        "Commercial" ↔
      3 ≤ ((get_points_within_radius dist
          (find_optimal_location dist centroidFn businesses cat clusters).recommended_location
          (businesses.map mkPoint) 2).take 5).countP
        (fun pd => pd.1.business.zone_type == "Commercial") := by
  have hzone : (find_optimal_location dist centroidFn businesses cat clusters).zone_type =
      if 3 ≤ ((((get_points_within_radius dist
          (find_optimal_location dist centroidFn businesses cat clusters).recommended_location
          (businesses.map mkPoint) 2).take 10).map toNearby).take 5).countP
          (fun nb => nb.zone_type == "Commercial")
      then ("Commercial") else ("Residential") := rfl
  have hcount : ((((get_points_within_radius dist
      (find_optimal_location dist centroidFn businesses cat clusters).recommended_location
      (businesses.map mkPoint) 2).take 10).map toNearby).take 5).countP
      (fun nb => nb.zone_type == "Commercial") =
      ((get_points_within_radius dist
        (find_optimal_location dist centroidFn businesses cat clusters).recommended_location
        (businesses.map mkPoint) 2).take 5).countP
        (fun pd => pd.1.business.zone_type == "Commercial") := by
    rw [← List.map_take, List.take_take]
    rw [show (5 : Nat) ⊓ 10 = 5 by decide]
    rw [List.countP_map]
    rfl
  rw [hzone, hcount]
  by_cases hc : 3 ≤ ((get_points_within_radius dist
      (find_optimal_location dist centroidFn businesses cat clusters).recommended_location
      (businesses.map mkPoint) 2).take 5).countP
      (fun pd => pd.1.business.zone_type == "Commercial")
  · simp [hc]
  · simp [hc]

/-- Distribution of the pair projections over the four-way opportunity
band selection. -/
theorem pair_if_chain {c1 c2 c3 : Prop} [Decidable c1] [Decidable c2] [Decidable c3]
    (p1 p2 p3 p4 : String × δ) :
    ((if c1 then p1 else if c2 then p2 else if c3 then p3 else p4).2 =
      (if c1 then p1.2 else if c2 then p2.2 else if c3 then p3.2 else p4.2)) ∧
    ((if c1 then p1 else if c2 then p2 else if c3 then p3 else p4).1 =
      (if c1 then p1.1 else if c2 then p2.1 else if c3 then p3.1 else p4.1)) := by
  constructor
  · split
    · rfl
    · split
      · rfl
      · split
        · rfl
        · rfl
  · split
    · rfl
    · split
      · rfl
      · split
        · rfl
        · rfl

/-- C8.  Opportunity label and confidence are exactly the fixed lookup
on the competitor counts at the recommended location: no competitor
within 500 m gives the high-opportunity label with confidence 0.92;
otherwise at most 2 within 1 km gives moderate-high with 0.78;
otherwise at most 5 within 1 km gives moderate with 0.62; otherwise
challenging with 0.45. -/
theorem C8_opportunity_confidence (dist : δ → δ → δ → δ → δ)
    (centroidFn : List (δ × δ) → Centroid δ) (businesses : List (Business δ))
    (cat : String) (clusters : List (Cluster δ)) :
    ((find_optimal_location dist centroidFn businesses cat clusters).analysis.confidence =
      (if (find_optimal_location dist centroidFn businesses cat
            clusters).competitor_analysis.competitors_within_500m = 0 then (92 / 100 : δ)
       else if (find_optimal_location dist centroidFn businesses cat
            clusters).competitor_analysis.competitors_within_1km ≤ 2 then (78 / 100 : δ)
       else if (find_optimal_location dist centroidFn businesses cat
            clusters).competitor_analysis.competitors_within_1km ≤ 5 then (62 / 100 : δ)
       else (45 / 100 : δ))) ∧
    ((find_optimal_location dist centroidFn businesses cat clusters).analysis.opportunity =
      (if (find_optimal_location dist centroidFn businesses cat
            clusters).competitor_analysis.competitors_within_500m = 0 then
        ("HIGH OPPORTUNITY: No direct competitors within 500m radius. Ideal location for market entry with first-mover advantage.")
       else if (find_optimal_location dist centroidFn businesses cat
            clusters).competitor_analysis.competitors_within_1km ≤ 2 then
        ("MODERATE-HIGH OPPORTUNITY: Low competition density within 1km. Good potential for market share with proper execution.")
       else if (find_optimal_location dist centroidFn businesses cat
            clusters).competitor_analysis.competitors_within_1km ≤ 5 then
        ("MODERATE OPPORTUNITY: Moderate competition present. Success depends on differentiation and service quality.")
       else
        ("CHALLENGING MARKET: High competition density. Requires strong differentiation strategy or consider alternative location."))) := by
  constructor
  · exact (pair_if_chain
      ("HIGH OPPORTUNITY: No direct competitors within 500m radius. Ideal location for market entry with first-mover advantage.", (92 / 100 : δ))
      ("MODERATE-HIGH OPPORTUNITY: Low competition density within 1km. Good potential for market share with proper execution.", (78 / 100 : δ))
      ("MODERATE OPPORTUNITY: Moderate competition present. Success depends on differentiation and service quality.", (62 / 100 : δ))
      ("CHALLENGING MARKET: High competition density. Requires strong differentiation strategy or consider alternative location.", (45 / 100 : δ))).1
  · exact (pair_if_chain
      ("HIGH OPPORTUNITY: No direct competitors within 500m radius. Ideal location for market entry with first-mover advantage.", (92 / 100 : δ))
      ("MODERATE-HIGH OPPORTUNITY: Low competition density within 1km. Good potential for market share with proper execution.", (78 / 100 : δ))
      ("MODERATE OPPORTUNITY: Moderate competition present. Success depends on differentiation and service quality.", (62 / 100 : δ))
      ("CHALLENGING MARKET: High competition density. Requires strong differentiation strategy or consider alternative location.", (45 / 100 : δ))).2

/-- C7 counterexample: five businesses, of which the three Commercial
ones lie beyond the 2 km radius.  At least 3 of the 5 nearest
businesses overall (here: all five) are Commercial, yet the code
reports "Residential", because it only ranks businesses within 2 km of
the recommended location. -/
theorem C7_counterexample :
    ¬ (((find_optimal_location planarDist centroidHead splitZoneBusinesses
          ("Cafe") originCluster).zone_type = "Commercial") ↔
        3 ≤ (fiveNearestAllBusinesses planarDist
            (find_optimal_location planarDist centroidHead splitZoneBusinesses
              ("Cafe") originCluster).recommended_location
            splitZoneBusinesses).countP (fun b => b.zone_type == "Commercial")) := by
  with_unfolding_all decide

/-- C9.  Market saturation is exactly `min(within1km / 10, 1)`; it
always lies in `[0, 1]`, and it equals 1 as soon as at least 10
competitors lie within 1 km. -/
theorem C9_market_saturation (dist : δ → δ → δ → δ → δ) (location : Centroid δ)
    (businesses : List (Business δ)) (cat : String) :
    ((analyze_competitors dist location businesses cat).market_saturation =
      min (((analyze_competitors dist location businesses cat).competitors_within_1km : δ) / 10) 1) ∧
    0 ≤ (analyze_competitors dist location businesses cat).market_saturation ∧
    (analyze_competitors dist location businesses cat).market_saturation ≤ 1 ∧
    (10 ≤ (analyze_competitors dist location businesses cat).competitors_within_1km →
      (analyze_competitors dist location businesses cat).market_saturation = 1) := by
  unfold analyze_competitors
  simp only []
  split
  · refine ⟨by norm_num, le_refl 0, zero_le_one, ?_⟩
    intro hten
    simp at hten
  · refine ⟨rfl, ?_, min_le_right _ _, ?_⟩
    · apply le_min
      · positivity
      · exact zero_le_one
    · intro hten
      apply min_eq_right
      rw [le_div_iff (by norm_num : (0 : δ) < 10)]
      rw [one_mul]
      exact_mod_cast hten

end KM

/-! ### Lemmas about the real haversine distance -/

/-- `atan2 0 1 = 0`. -/
theorem atan2_zero_one : atan2 0 1 = 0 := by
  unfold atan2
  rw [if_pos one_pos]
  norm_num [Real.arctan_zero]

/-- The haversine distance of a point to itself is zero. -/
theorem haversine_distance_self (lat lon : ℝ) :
    haversine_distance lat lon lat lon = 0 := by
  unfold haversine_distance radians
  simp only [sub_self, zero_mul, zero_div, Real.sin_zero, ne_eq, OfNat.ofNat_ne_zero,
    not_false_eq_true, zero_pow, mul_zero, add_zero, Real.sqrt_zero, sub_zero, Real.sqrt_one]
  rw [atan2_zero_one]
  ring

/-- The two points `(90, 0)` and `(90, 1)` are distinct valid
coordinates at haversine distance zero (both name the north pole). -/
theorem haversine_pole : haversine_distance 90 0 90 1 = 0 := by
  unfold haversine_distance
  have h90 : radians 90 = Real.pi / 2 := by unfold radians; ring
  have h0 : radians (90 - 90) = 0 := by unfold radians; ring
  rw [h0, h90]
  simp only [zero_div, Real.sin_zero, ne_eq, OfNat.ofNat_ne_zero, not_false_eq_true,
    zero_pow, Real.cos_pi_div_two, zero_mul, mul_zero, zero_add, add_zero, mul_one,
    Real.sqrt_zero, sub_zero, Real.sqrt_one]
  rw [atan2_zero_one]
  ring

/-- `radians` is strictly monotone. -/
theorem radians_strictMono : StrictMono radians := by
  intro x y hxy
  unfold radians
  have hp := Real.pi_pos
  have h1 : x * Real.pi < y * Real.pi := by nlinarith
  linarith

/-- Latitudes strictly inside the poles have positive cosine after
conversion to radians. -/
theorem cos_radians_pos (lat : ℝ) (ha : -90 < lat) (hb : lat < 90) :
    0 < Real.cos (radians lat) := by
  apply Real.cos_pos_of_mem_Ioo
  constructor
  · have := radians_strictMono ha
    have h90 : radians (-90) = -(Real.pi / 2) := by unfold radians; ring
    rw [h90] at this
    exact this
  · have := radians_strictMono hb
    have h90 : radians 90 = Real.pi / 2 := by unfold radians; ring
    rw [h90] at this
    exact this

/-- Forward direction of the zero-distance characterization, away from
the poles and the antimeridian wrap-around. -/
theorem haversine_distance_eq_zero (lat1 lon1 lat2 lon2 : ℝ)
    (h1a : -90 < lat1) (h1b : lat1 < 90) (h2a : -90 < lat2) (h2b : lat2 < 90)
    (h3a : -180 < lon1) (h3b : lon1 ≤ 180) (h4a : -180 < lon2) (h4b : lon2 ≤ 180)
    (h : haversine_distance lat1 lon1 lat2 lon2 = 0) :
    lat1 = lat2 ∧ lon1 = lon2 := by
  have hp := Real.pi_pos
  set A := Real.sin (radians (lat2 - lat1) / 2) ^ 2 +
    Real.cos (radians lat1) * Real.cos (radians lat2) *
      Real.sin (radians (lon2 - lon1) / 2) ^ 2 with hA
  have hc : atan2 (Real.sqrt A) (Real.sqrt (1 - A)) = 0 := by
    have hx : EARTH_RADIUS_KM * (2 * atan2 (Real.sqrt A) (Real.sqrt (1 - A))) = 0 := h
    have hr : (EARTH_RADIUS_KM : ℝ) = 6371 := rfl
    rw [hr] at hx
    linarith
  have hc1 : 0 < Real.cos (radians lat1) := cos_radians_pos lat1 h1a h1b
  have hc2 : 0 < Real.cos (radians lat2) := cos_radians_pos lat2 h2a h2b
  have hAnn : 0 ≤ A := by
    rw [hA]
    have h1 := sq_nonneg (Real.sin (radians (lat2 - lat1) / 2))
    have h2 := sq_nonneg (Real.sin (radians (lon2 - lon1) / 2))
    have h3 := mul_nonneg (mul_pos hc1 hc2).le h2
    linarith
  have hA0 : A = 0 := by
    by_contra hne
    have hApos : 0 < A := lt_of_le_of_ne hAnn (Ne.symm hne)
    have hsA : 0 < Real.sqrt A := Real.sqrt_pos.mpr hApos
    unfold atan2 at hc
    by_cases hxp : 0 < Real.sqrt (1 - A)
    · rw [if_pos hxp] at hc
      have hdiv := Real.arctan_eq_zero_iff.mp hc
      rcases div_eq_zero_iff.mp hdiv with h0 | h0
      · linarith
      · linarith
    · rw [if_neg hxp] at hc
      have hxnn : 0 ≤ Real.sqrt (1 - A) := Real.sqrt_nonneg _
      rw [if_neg (not_lt.mpr hxnn)] at hc
      rw [if_pos hsA] at hc
      linarith
  have hexp : Real.sin (radians (lat2 - lat1) / 2) ^ 2 +
      Real.cos (radians lat1) * Real.cos (radians lat2) *
        Real.sin (radians (lon2 - lon1) / 2) ^ 2 = 0 := by
    rw [← hA]
    exact hA0
  have hcc := mul_pos hc1 hc2
  have hq1 := sq_nonneg (Real.sin (radians (lat2 - lat1) / 2))
  have hq2 := sq_nonneg (Real.sin (radians (lon2 - lon1) / 2))
  have hq3 := mul_nonneg hcc.le hq2
  have hs1 : Real.sin (radians (lat2 - lat1) / 2) ^ 2 = 0 := by linarith
  have hs2 : Real.sin (radians (lon2 - lon1) / 2) ^ 2 = 0 := by
    by_contra hne
    have hpos : 0 < Real.sin (radians (lon2 - lon1) / 2) ^ 2 :=
      lt_of_le_of_ne hq2 (Ne.symm hne)
    have hcp : 0 < Real.cos (radians lat1) * Real.cos (radians lat2) *
        Real.sin (radians (lon2 - lon1) / 2) ^ 2 := mul_pos hcc hpos
    linarith
  have hsin1 : Real.sin (radians (lat2 - lat1) / 2) = 0 := by
    exact pow_eq_zero_iff two_ne_zero |>.mp hs1
  have hsin2 : Real.sin (radians (lon2 - lon1) / 2) = 0 := by
    exact pow_eq_zero_iff two_ne_zero |>.mp hs2
  have hb1 : -Real.pi < radians (lat2 - lat1) / 2 ∧ radians (lat2 - lat1) / 2 < Real.pi := by
    have hlow : radians (-180) < radians (lat2 - lat1) := radians_strictMono (by linarith)
    have hhigh : radians (lat2 - lat1) < radians 180 := radians_strictMono (by linarith)
    have he1 : radians (-180) = -Real.pi := by unfold radians; ring
    have he2 : radians (180) = Real.pi := by unfold radians; ring
    rw [he1] at hlow
    rw [he2] at hhigh
    constructor <;> linarith
  have hb2 : -Real.pi < radians (lon2 - lon1) / 2 ∧ radians (lon2 - lon1) / 2 < Real.pi := by
    have hlow : radians (-360) < radians (lon2 - lon1) := radians_strictMono (by linarith)
    have hhigh : radians (lon2 - lon1) < radians 360 := radians_strictMono (by linarith)
    have he1 : radians (-360) = -(2 * Real.pi) := by unfold radians; ring
    have he2 : radians (360) = 2 * Real.pi := by unfold radians; ring
    rw [he1] at hlow
    rw [he2] at hhigh
    constructor <;> linarith
  have hz1 : radians (lat2 - lat1) / 2 = 0 :=
    (Real.sin_eq_zero_iff_of_lt_of_lt hb1.1 hb1.2).mp hsin1
  have hz2 : radians (lon2 - lon1) / 2 = 0 :=
    (Real.sin_eq_zero_iff_of_lt_of_lt hb2.1 hb2.2).mp hsin2
  have hd1 : lat2 - lat1 = 0 := by
    unfold radians at hz1
    have hmul : (lat2 - lat1) * Real.pi = 0 := by linarith
    rcases mul_eq_zero.mp hmul with h0 | h0
    · exact h0
    · exact absurd h0 Real.pi_ne_zero
  have hd2 : lon2 - lon1 = 0 := by
    unfold radians at hz2
    have hmul : (lon2 - lon1) * Real.pi = 0 := by linarith
    rcases mul_eq_zero.mp hmul with h0 | h0
    · exact h0
    · exact absurd h0 Real.pi_ne_zero
  constructor <;> linarith

/-- C6 counterexample: `(90, 0)` and `(90, 1)` are distinct GeoPoints
within the valid latitude/longitude ranges, yet their haversine
distance is exactly zero (both denote the north pole), refuting the
claimed "zero iff equal" characterization as stated. -/
theorem C6_counterexample :
    ((-90 : ℝ) ≤ 90 ∧ (90 : ℝ) ≤ 90 ∧ (-180 : ℝ) ≤ 0 ∧ (0 : ℝ) ≤ 180 ∧
     (-180 : ℝ) ≤ 1 ∧ (1 : ℝ) ≤ 180) ∧
    haversine_distance 90 0 90 1 = 0 ∧
    ¬ (((90 : ℝ), (0 : ℝ)) = ((90 : ℝ), (1 : ℝ))) := by
  refine ⟨by norm_num, haversine_pole, ?_⟩
  intro hcontra
  have h01 : (0 : ℝ) = 1 := congrArg Prod.snd hcontra
  norm_num at h01

/-- C6 (amended).  `distanceKm(a, a) = 0` holds for every GeoPoint,
and the full characterization `distanceKm(a, b) = 0 ↔ a = b` holds for
all GeoPoints with latitudes strictly between the poles and longitudes
in `(-180, 180]`; at the poles (and for longitude wrap-around at
±180) distinct coordinate pairs can denote the same physical point and
be at distance zero. -/
theorem C6_zero_distance :
    (∀ lat lon : ℝ, haversine_distance lat lon lat lon = 0) ∧
    (∀ lat1 lon1 lat2 lon2 : ℝ,
      -90 < lat1 → lat1 < 90 → -90 < lat2 → lat2 < 90 →
      -180 < lon1 → lon1 ≤ 180 → -180 < lon2 → lon2 ≤ 180 →
      (haversine_distance lat1 lon1 lat2 lon2 = 0 ↔ (lat1 = lat2 ∧ lon1 = lon2))) := by
  refine ⟨haversine_distance_self, ?_⟩
  intro lat1 lon1 lat2 lon2 h1a h1b h2a h2b h3a h3b h4a h4b
  constructor
  · exact haversine_distance_eq_zero lat1 lon1 lat2 lon2 h1a h1b h2a h2b h3a h3b h4a h4b
  · rintro ⟨he1, he2⟩
    subst he1
    subst he2
    exact haversine_distance_self lat1 lon1

/-- Concrete instantiation of the amended zero-distance
characterization at the point `(10, 20)`. -/
theorem C6_zero_distance_witness :
    haversine_distance 10 20 10 20 = 0 ∧
    ((-90 : ℝ) < 10 ∧ (10 : ℝ) < 90 ∧ (-180 : ℝ) < 20 ∧ (20 : ℝ) ≤ 180) ∧
    (haversine_distance 10 20 10 20 = 0 ↔ ((10 : ℝ) = 10 ∧ (20 : ℝ) = 20)) :=
  ⟨C6_zero_distance.1 10 20,
   ⟨by norm_num, by norm_num, by norm_num, by norm_num⟩,
   C6_zero_distance.2 10 20 10 20 (by norm_num) (by norm_num) (by norm_num) (by norm_num)
     (by norm_num) (by norm_num) (by norm_num) (by norm_num)⟩

namespace KM

/-- Concrete run of the partition invariant: one sampled index, one
allowed pass, three input businesses. -/
theorem C1_partition_invariant_witness :
    (([0] : List Nat) ≠ [] ∧ (1 : Nat) ≤ 100 ∧
      perform_kmeans_clustering planarDist centroidHead threeBusinesses ("Cafe") [0] 1 100 =
        Except.ok ((perform_kmeans_clustering planarDist centroidHead threeBusinesses ("Cafe")
          [0] 1 100).toOption.getD defaultResultQ)) ∧
    ((((perform_kmeans_clustering planarDist centroidHead threeBusinesses ("Cafe")
          [0] 1 100).toOption.getD defaultResultQ).1.clusters.map
        (fun c => (c.points : Multiset (FormattedPoint ℚ)))).sum =
      (((threeBusinesses.map mkPoint).map formatPoint : List (FormattedPoint ℚ)) :
        Multiset (FormattedPoint ℚ))) ∧
    ∀ b ∈ threeBusinesses,
      ∃! fc, fc ∈ ((perform_kmeans_clustering planarDist centroidHead threeBusinesses ("Cafe")
        [0] 1 100).toOption.getD defaultResultQ).1.clusters ∧
        formatPoint (mkPoint b) ∈ fc.points := by
  have hrun : perform_kmeans_clustering planarDist centroidHead threeBusinesses ("Cafe")
      [0] 1 100 =
      Except.ok ((perform_kmeans_clustering planarDist centroidHead threeBusinesses ("Cafe")
        [0] 1 100).toOption.getD defaultResultQ) := by
    with_unfolding_all rfl
  obtain ⟨h1, h2⟩ := C1_partition_invariant planarDist centroidHead threeBusinesses ("Cafe")
    [0] 1 100 _ (by decide) (by decide) hrun
  exact ⟨⟨by decide, by decide, hrun⟩, h1, h2⟩

/-- Concrete run of the iteration bound. -/
theorem C3_iteration_bound_witness :
    (perform_kmeans_clustering planarDist centroidHead threeBusinesses ("Cafe") [0] 1 100 =
      Except.ok ((perform_kmeans_clustering planarDist centroidHead threeBusinesses ("Cafe")
        [0] 1 100).toOption.getD defaultResultQ)) ∧
    ((perform_kmeans_clustering planarDist centroidHead threeBusinesses ("Cafe")
      [0] 1 100).toOption.getD defaultResultQ).2 ≤ 100 ∧
    1 ≤ ((perform_kmeans_clustering planarDist centroidHead threeBusinesses ("Cafe")
      [0] 1 100).toOption.getD defaultResultQ).2 := by
  have hrun : perform_kmeans_clustering planarDist centroidHead threeBusinesses ("Cafe")
      [0] 1 100 =
      Except.ok ((perform_kmeans_clustering planarDist centroidHead threeBusinesses ("Cafe")
        [0] 1 100).toOption.getD defaultResultQ) := by
    with_unfolding_all rfl
  obtain ⟨h1, h2⟩ := C3_iteration_bound planarDist centroidHead threeBusinesses ("Cafe")
    [0] 1 100 _ hrun
  exact ⟨hrun, h1, h2 (by decide)⟩

/-- Concrete update pass: the first cluster is empty and keeps its
centroid `(5, 6)`. -/
theorem C4_empty_cluster_centroid_witness :
    ((0 : Nat) < twoClusters.length ∧
      (twoClusters.get ⟨0, by decide⟩).points = []) ∧
    (recalculate_centroids centroidHead twoClusters)[0]? =
      some (twoClusters.get ⟨0, by decide⟩).centroid := by
  refine ⟨⟨by decide, by with_unfolding_all decide⟩, ?_⟩
  exact (C4_empty_cluster_centroid centroidHead twoClusters 0 (by decide)).2.1
    (by with_unfolding_all decide)

/-- Concrete guard failure: four clusters requested from three
points. -/
theorem C2_k_guard_witness :
    threeBusinesses.length < 4 ∧
    perform_kmeans_clustering planarDist centroidHead threeBusinesses ("Cafe") [0] 4 100 =
      Except.error SampleError.valueError :=
  ⟨by decide,
   C2_k_guard.1 planarDist centroidHead threeBusinesses ("Cafe") [0] 4 100 (by decide)⟩

/-- Concrete determinism instance: two different sampled indices that
select the same coordinates give identical runs. -/
theorem C5_determinism_witness :
    (initialize_centroids (dupCoordBusinesses.map mkPoint) 1 [0] =
      initialize_centroids (dupCoordBusinesses.map mkPoint) 1 [1]) ∧
    perform_kmeans_clustering planarDist centroidHead dupCoordBusinesses ("Cafe") [0] 1 100 =
      perform_kmeans_clustering planarDist centroidHead dupCoordBusinesses ("Cafe") [1] 1 100 := by
  have hsame : initialize_centroids (dupCoordBusinesses.map mkPoint) 1 [0] =
      initialize_centroids (dupCoordBusinesses.map mkPoint) 1 [1] := by
    with_unfolding_all rfl
  exact ⟨hsame, C5_determinism_modulo_sampling planarDist centroidHead dupCoordBusinesses
    ("Cafe") [0] [1] 1 100 hsame⟩

/-- Concrete saturation instance: ten competitors at the analysed
location give saturation exactly 1. -/
theorem C9_market_saturation_witness :
    10 ≤ (analyze_competitors planarDist { latitude := 0, longitude := 0 } tenCafes
      ("Cafe")).competitors_within_1km ∧
    (analyze_competitors planarDist { latitude := 0, longitude := 0 } tenCafes
      ("Cafe")).market_saturation = 1 :=
  ⟨by with_unfolding_all decide,
   (C9_market_saturation planarDist { latitude := 0, longitude := 0 } tenCafes
     ("Cafe")).2.2.2 (by with_unfolding_all decide)⟩

/-- Concrete converged run: one cluster, convergence on the first pass,
so the reported centroid is the assignment centroid. -/
theorem C10_converged_output_consistency_witness :
    (([0] : List Nat) ≠ [] ∧
      perform_kmeans_clustering planarDist centroidHead threeBusinesses ("Cafe") [0] 1 100 =
        Except.ok ((perform_kmeans_clustering planarDist centroidHead threeBusinesses ("Cafe")
          [0] 1 100).toOption.getD defaultResultQ) ∧
      ((perform_kmeans_clustering planarDist centroidHead threeBusinesses ("Cafe")
        [0] 1 100).toOption.getD defaultResultQ).2 < 100) ∧
    ∀ ci ∈ ((perform_kmeans_clustering planarDist centroidHead threeBusinesses ("Cafe")
        [0] 1 100).toOption.getD defaultResultQ).1.clusters,
      ∀ p ∈ ci.points,
        ∀ cj ∈ ((perform_kmeans_clustering planarDist centroidHead threeBusinesses ("Cafe")
          [0] 1 100).toOption.getD defaultResultQ).1.clusters,
          planarDist p.latitude p.longitude ci.centroid.latitude ci.centroid.longitude ≤
            planarDist p.latitude p.longitude cj.centroid.latitude cj.centroid.longitude := by
  have hrun : perform_kmeans_clustering planarDist centroidHead threeBusinesses ("Cafe")
      [0] 1 100 =
      Except.ok ((perform_kmeans_clustering planarDist centroidHead threeBusinesses ("Cafe")
        [0] 1 100).toOption.getD defaultResultQ) := by
    with_unfolding_all rfl
  have hconv : ((perform_kmeans_clustering planarDist centroidHead threeBusinesses ("Cafe")
      [0] 1 100).toOption.getD defaultResultQ).2 < 100 := by
    with_unfolding_all decide
  exact ⟨⟨by decide, hrun, hconv⟩,
    C10_converged_output_consistency planarDist centroidHead threeBusinesses ("Cafe")
      [0] 1 100 _ (by decide) hrun hconv⟩

end KM

end SSP
